import Mathlib

/-!
Verification of the command-execution and process-supervision layer of a
scrcpy GUI backend (`gui/backend/backend.go`, `gui/backend/errors.go`).

The Go code is shallowly embedded: pure string manipulation becomes Lean
string functions, the external-process boundary becomes an explicit oracle
(`List String → RawExec`) passed to each operation, and the mutex-guarded
session state becomes an explicit state record threaded through the
lifecycle operations.
-/

namespace Backend

/-! ## String helpers mirroring the Go standard library -/

/-- Model of `unicode.IsSpace` restricted to the ASCII range, which is the range the
bridge tool's output uses (space, tab, newline, vertical tab, form feed,
carriage return). -/
def goIsSpace (c : Char) : Bool :=
  c = ' ' || c = '\t' || c = '\n' || c = (Char.ofNat 11) || c = (Char.ofNat 12) || c = '\r'

/-- Model of `strings.TrimSpace`: drop leading and trailing whitespace. -/
def goTrimSpace (s : String) : String :=
  ⟨((s.data.dropWhile goIsSpace).reverse.dropWhile goIsSpace).reverse⟩

/-- Model of `strings.ToLower` on one character (ASCII range, which covers every
phrase the backend matches against). -/
def goCharToLower (c : Char) : Char :=
  if 'A' ≤ c ∧ c ≤ 'Z' then Char.ofNat (c.toNat + 32) else c

/-- Model of `strings.ToLower`. -/
def goToLower (s : String) : String :=
  ⟨s.data.map goCharToLower⟩

/-- Substring occurrence on character lists: `needle` occurs somewhere in
`hay` (`strings.Contains`). -/
def listContainsSub (needle : List Char) : List Char → Bool
  | [] => needle.isEmpty
  | c :: t => needle.isPrefixOf (c :: t) || listContainsSub needle t

/-- Model of `strings.Contains`. -/
def goContains (hay needle : String) : Bool :=
  listContainsSub needle.data hay.data

/-- Model of `strings.HasPrefix`. -/
def goHasPrefix (s pre : String) : Bool :=
  pre.data.isPrefixOf s.data

/-- Split a character list at every character satisfying `p`, keeping
empty pieces (the semantics of `strings.Split` with a one-character
separator, and the substrate of `strings.Fields`). -/
def splitOnPred (p : Char → Bool) : List Char → List (List Char)
  | [] => [[]]
  | c :: rest =>
    let r := splitOnPred p rest
    if p c then [] :: r
    else
      match r with
      | [] => [[c]]
      | w :: ws => (c :: w) :: ws

/-- Model of `strings.Fields`: split around runs of whitespace, dropping empty
pieces. -/
def goFields (s : String) : List String :=
  ((splitOnPred goIsSpace s.data).map (fun l => (⟨l⟩ : String))).filter
    (fun t => t ≠ "")

/-- Model of `strings.Split(s, "\n")`. -/
def goSplitLines (s : String) : List String :=
  (splitOnPred (fun c => c = '\n') s.data).map (fun l => (⟨l⟩ : String))

/-- The helper `containsAny` from backend.go lines 277-285: case-insensitive substring
match of any needle in the haystack. -/
def containsAny (haystack : String) (needles : List String) : Bool :=
  needles.any (fun needle => goContains (goToLower haystack) (goToLower needle))

/-! ## Error taxonomy (errors.go) -/

/-- The closed set of failure kinds (`ErrorKind` constants). -/
inductive ErrorKind where
  | timeout
  | commandFailed
  | parse
  | invalidInput
  | notRunning
deriving DecidableEq, Repr

/-- Lower-level Go errors that get wrapped as causes: context expiry
signals, typed exit statuses, and everything else. -/
inductive GoError where
  | deadlineExceeded
  | canceled
  | exitError (code : Int)
  | other (msg : String)
deriving DecidableEq, Repr

/-- The `UIError` carrier: the uniform structured-error carrier. `Err` is the optional
wrapped cause (`nil` in Go becomes `none`). -/
structure UIError where
  Kind : ErrorKind
  Message : String
  Command : String
  Stdout : String
  Stderr : String
  ExitCode : Int
  Err : Option GoError
deriving DecidableEq, Repr

def newInvalidInputError (message : String) : UIError :=
  { Kind := .invalidInput, Message := message, Command := "", Stdout := "",
    Stderr := "", ExitCode := 0, Err := none }

def newNotRunningError (message : String) : UIError :=
  { Kind := .notRunning, Message := message, Command := "", Stdout := "",
    Stderr := "", ExitCode := 0, Err := none }

def newTimeoutError (command : String) (err : GoError) : UIError :=
  { Kind := .timeout, Message := "timeout while running " ++ command,
    Command := command, Stdout := "", Stderr := "", ExitCode := 0,
    Err := some err }

def newCommandFailedError (command stdout stderr : String) (exitCode : Int)
    (err : GoError) : UIError :=
  { Kind := .commandFailed, Message := "command failed: " ++ command,
    Command := command, Stdout := stdout, Stderr := stderr,
    ExitCode := exitCode, Err := some err }

def newParseError (command stdout stderr : String) (err : GoError) : UIError :=
  { Kind := .parse, Message := "unexpected output from " ++ command,
    Command := command, Stdout := stdout, Stderr := stderr, ExitCode := 0,
    Err := some err }

/-- The predicate `isTimeout`: the error is a context expiry signal. -/
def isTimeout (err : GoError) : Bool :=
  err = .deadlineExceeded || err = .canceled

/-! ## Bounded command execution (runCommand, backend.go lines 254-275)

The operating-system boundary is abstracted as a `RawExec` record: the raw
captured output streams, the error `cmd.Run()` returned (`none` on a zero
exit), and the state of the bounding context at inspection time
(`ctx.Err()`). -/

/-- Raw result of one spawned process, before classification. -/
structure RawExec where
  stdout : String
  stderr : String
  runErr : Option GoError
  ctxErr : Option GoError
deriving DecidableEq, Repr

/-- Model of `errors.As(err, &exitErr)` followed by `exitErr.ExitCode()`, with the
`0` default when the error is not a typed exit status. -/
def extractExitCode : GoError → Int
  | .exitError code => code
  | _ => 0

/-- The primitive `runCommand`: trim both streams, then classify the run error: context
expiry yields `timeout`, any other error yields `command_failed` carrying
the trimmed streams and exit code, and no error yields the trimmed
streams. -/
def runCommand (command : String) (raw : RawExec) :
    String × String × Option UIError :=
  let outStr := goTrimSpace raw.stdout
  let errStr := goTrimSpace raw.stderr
  match raw.runErr with
  | some err =>
    if isTimeout err || raw.ctxErr.isSome then
      (outStr, errStr, some (newTimeoutError command err))
    else
      (outStr, errStr,
        some (newCommandFailedError command outStr errStr
          (extractExitCode err) err))
  | none => (outStr, errStr, none)

/-- The oracle standing for the operating system: what raw result spawning
the bridge tool with the given argument list produces. -/
def AdbExec := List String → RawExec

/-- The wrapper `runAdb`: run the bridge tool under the default bounded context. -/
def runAdb (adbPath : String) (exec : AdbExec) (args : List String) :
    String × String × Option UIError :=
  runCommand adbPath (exec args)

/-! ## Bridge operations (backend.go lines 64-149) -/

/-- A discovered device: identifier and bridge-reported state. -/
structure Device where
  ID : String
  State : String
deriving DecidableEq, Repr

/-- The per-line loop body of `ListDevices` (lines 72-82): trim, skip empty
and header lines, split the rest into fields, fail `parse` on fewer than
two fields, otherwise collect an `{id, state}` pair. -/
def parseDeviceLines (stdout stderr : String) :
    List String → Except UIError (List Device)
  | [] => .ok []
  | line :: rest =>
    let trimmed := goTrimSpace line
    if trimmed = "" || goHasPrefix trimmed "List of devices attached" then
      parseDeviceLines stdout stderr rest
    else
      match goFields trimmed with
      | f0 :: f1 :: _ =>
        match parseDeviceLines stdout stderr rest with
        | .ok devices => .ok ({ ID := f0, State := f1 } :: devices)
        | .error e => .error e
      | _ =>
        .error (newParseError "adb devices" stdout stderr
          (.other ("unexpected device line: " ++ trimmed)))

/-- Operation `ListDevices`: run `adb devices` and parse its trimmed stdout
line by line. -/
def ListDevices (adbPath : String) (exec : AdbExec) :
    Except UIError (List Device) :=
  match runAdb adbPath exec ["devices"] with
  | (_, _, some e) => .error e
  | (stdout, stderr, none) =>
    parseDeviceLines stdout stderr (goSplitLines stdout)

/-- Classification of `PairDevice`'s trimmed stdout on a zero exit
(lines 95-101). -/
def classifyPair (stdout stderr : String) : Option UIError :=
  if containsAny stdout ["Successfully paired to", "already paired"] then
    none
  else if containsAny stdout ["failed", "error"] then
    some (newCommandFailedError "adb pair" stdout stderr 0
      (.other "pair failed"))
  else
    some (newParseError "adb pair" stdout stderr (.other "unexpected output"))

/-- Operation `PairDevice`: validate, run `adb pair address:port code`, classify. -/
def PairDevice (adbPath : String) (exec : AdbExec) (ip : String) (port : Int)
    (code : String) : Option UIError :=
  if ip = "" || port ≤ 0 || code = "" then
    some (newInvalidInputError "pair requires ip, port, and code")
  else
    let endpoint := ip ++ ":" ++ toString port
    match runAdb adbPath exec ["pair", endpoint, code] with
    | (_, _, some e) => some e
    | (stdout, stderr, none) => classifyPair stdout stderr

/-- Classification of `ConnectDevice`'s trimmed stdout on a zero exit
(lines 113-119). -/
def classifyConnect (stdout stderr : String) : Option UIError :=
  if containsAny stdout ["connected to", "already connected"] then
    none
  else if containsAny stdout ["failed", "unable"] then
    some (newCommandFailedError "adb connect" stdout stderr 0
      (.other "connect failed"))
  else
    some (newParseError "adb connect" stdout stderr
      (.other "unexpected output"))

/-- Operation `ConnectDevice`: validate, run `adb connect address:port`, classify. -/
def ConnectDevice (adbPath : String) (exec : AdbExec) (ip : String)
    (port : Int) : Option UIError :=
  if ip = "" || port ≤ 0 then
    some (newInvalidInputError "connect requires ip and port")
  else
    let endpoint := ip ++ ":" ++ toString port
    match runAdb adbPath exec ["connect", endpoint] with
    | (_, _, some e) => some e
    | (stdout, stderr, none) => classifyConnect stdout stderr

/-- Classification of `EnableTCPIP`'s trimmed stdout on a zero exit
(lines 130-133): success phrases, otherwise directly `parse` — this
operation consults no failure group. -/
def classifyTcpip (stdout stderr : String) : Option UIError :=
  if containsAny stdout ["restarting in TCP mode", "already in tcp"] then
    none
  else
    some (newParseError "adb tcpip" stdout stderr (.other "unexpected output"))

/-- Operation `EnableTCPIP`: validate the port, run `adb tcpip port`, classify. -/
def EnableTCPIP (adbPath : String) (exec : AdbExec) (port : Int) :
    Option UIError :=
  if port ≤ 0 then
    some (newInvalidInputError "tcpip requires a port")
  else
    match runAdb adbPath exec ["tcpip", toString port] with
    | (_, _, some e) => some e
    | (stdout, stderr, none) => classifyTcpip stdout stderr

/-- Classification of `DisconnectDevice`'s trimmed stdout on a zero exit
(lines 145-148): success phrases, otherwise directly `parse` — this
operation consults no failure group. -/
def classifyDisconnect (stdout stderr : String) : Option UIError :=
  if containsAny stdout ["disconnected", "no such device"] then
    none
  else
    some (newParseError "adb disconnect" stdout stderr
      (.other "unexpected output"))

/-- Operation `DisconnectDevice`: validate, run `adb disconnect address:port`,
classify. -/
def DisconnectDevice (adbPath : String) (exec : AdbExec) (ip : String)
    (port : Int) : Option UIError :=
  if ip = "" || port ≤ 0 then
    some (newInvalidInputError "disconnect requires ip and port")
  else
    let endpoint := ip ++ ":" ++ toString port
    match runAdb adbPath exec ["disconnect", endpoint] with
    | (_, _, some e) => some e
    | (stdout, stderr, none) => classifyDisconnect stdout stderr

/-! ## Mirroring session lifecycle (backend.go lines 151-246)

The mutex-guarded fields `scrcpyCmd`/`scrcpyCancel` become an explicit
state record; the lock serializes every access in the Go code, so each
critical section is one atomic state transition here. A process handle is
abstracted as an opaque identifier; a stored cancellation function is
abstracted as `Option Unit` (present or absent, exactly what the Go code
inspects). -/

/-- Session options (`ScrcpyOptions`). -/
structure ScrcpyOptions where
  BitRate : String
  MaxSize : Int
  MaxFps : Int
  TurnScreenOff : Bool
  Fullscreen : Bool
  StayAwake : Bool
  Record : String
  WindowTitle : String
  ExtraArgs : List String
deriving DecidableEq, Repr

/-- An abstract handle to a spawned mirroring process. -/
structure ProcHandle where
  pid : Nat
deriving DecidableEq, Repr

/-- The mutex-protected portion of `Backend`: the stored process handle and
its cancellation function. -/
structure SessionState where
  scrcpyCmd : Option ProcHandle
  scrcpyCancel : Option Unit
deriving DecidableEq, Repr

/-- The builder `buildScrcpyArgs` (lines 213-246): sequential conditional appends. -/
def buildScrcpyArgs (deviceID : String) (options : ScrcpyOptions) :
    List String :=
  let args : List String := []
  let args := if deviceID ≠ "" then args ++ ["-s", deviceID] else args
  let args := if options.BitRate ≠ "" then
    args ++ ["--bit-rate", options.BitRate] else args
  let args := if options.MaxSize > 0 then
    args ++ ["--max-size", toString options.MaxSize] else args
  let args := if options.MaxFps > 0 then
    args ++ ["--max-fps", toString options.MaxFps] else args
  let args := if options.TurnScreenOff then
    args ++ ["--turn-screen-off"] else args
  let args := if options.Fullscreen then args ++ ["--fullscreen"] else args
  let args := if options.StayAwake then args ++ ["--stay-awake"] else args
  let args := if options.Record ≠ "" then
    args ++ ["--record", options.Record] else args
  let args := if options.WindowTitle ≠ "" then
    args ++ ["--window-title", options.WindowTitle] else args
  let args := if options.ExtraArgs.length > 0 then
    args ++ options.ExtraArgs else args
  args

/-- Operation `StartScrcpy` (lines 151-181), as the atomic transition performed under
the lock. `spawn` abstracts `cmd.Start()`: either a live process handle or
the spawn error. The background watcher it launches is modelled separately
as `watcherOnExit`. -/
def StartScrcpy (spawn : Except GoError ProcHandle) (st : SessionState) :
    SessionState × Option UIError :=
  if st.scrcpyCmd.isSome then
    (st, some (newCommandFailedError "scrcpy" "" "" 0
      (.other "scrcpy already running")))
  else
    match spawn with
    | .error e => (st, some (newCommandFailedError "scrcpy" "" "" 0 e))
    | .ok cmd => ({ scrcpyCmd := some cmd, scrcpyCancel := some () }, none)

/-- The critical section of the background watcher goroutine
(lines 172-178): after the process exits, reacquire the lock and clear the
stored handle and cancellation function. -/
def watcherOnExit (_st : SessionState) : SessionState :=
  { scrcpyCmd := none, scrcpyCancel := none }

/-- Operation `StopScrcpy` (lines 183-211). `graceExpired` abstracts whether the
5-second wait context fired before `cmd.Wait()` delivered; its `Err()` at
that point is the deadline signal. Stop never mutates the stored state:
the watcher clears it when the process actually exits. -/
def StopScrcpy (graceExpired : Bool) (st : SessionState) :
    SessionState × Option UIError :=
  match st.scrcpyCmd, st.scrcpyCancel with
  | some _, some _ =>
    if graceExpired then
      (st, some (newTimeoutError "scrcpy" .deadlineExceeded))
    else
      (st, none)
  | _, _ => (st, some (newNotRunningError "scrcpy is not running"))

/-! ## Helper lemmas -/

/-- A conditional append commutes out of the accumulator. -/
theorem ite_append_out (c : Prop) [Decidable c] (a l : List String) :
    (if c then a ++ l else a) = a ++ (if c then l else []) := by
  by_cases h : c <;> simp [h]

/-- Guarding a list on its own non-emptiness is the identity. -/
theorem ite_len_pos (l : List String) :
    (if l.length > 0 then l else ([] : List String)) = l := by
  cases l <;> simp

/-- Every error produced by the device-line parser carries the stdout and
stderr it was given, and is a `parse` error. -/
theorem parseDeviceLines_error_fields (stdout stderr : String) :
    ∀ (lines : List String) (u : UIError),
      parseDeviceLines stdout stderr lines = .error u →
      u.Stdout = stdout ∧ u.Stderr = stderr ∧ u.Kind = .parse := by
  intro lines
  induction lines with
  | nil =>
    intro u h
    simp [parseDeviceLines] at h
  | cons l rest ih =>
    intro u h
    simp only [parseDeviceLines] at h
    split at h
    · exact ih u h
    · split at h
      · split at h
        · cases h
        · rename_i heq
          cases h
          exact ih _ heq
      · cases h
        exact ⟨rfl, rfl, rfl⟩

/-! ## Claims -/

/-- C8: the argument vector built from the session options is exactly the
concatenation of one conditional block per option — the `-s` selector
appears exactly when the device identifier is non-empty, each string flag
exactly when its string is non-empty, each numeric flag exactly when its
value is positive, each boolean flag exactly when it is true — followed by
the extra arguments verbatim. -/
theorem buildScrcpyArgs_blocks (deviceID : String) (o : ScrcpyOptions) :
    buildScrcpyArgs deviceID o =
      (if deviceID ≠ "" then ["-s", deviceID] else []) ++
      (if o.BitRate ≠ "" then ["--bit-rate", o.BitRate] else []) ++
      (if o.MaxSize > 0 then ["--max-size", toString o.MaxSize] else []) ++
      (if o.MaxFps > 0 then ["--max-fps", toString o.MaxFps] else []) ++
      (if o.TurnScreenOff then ["--turn-screen-off"] else []) ++
      (if o.Fullscreen then ["--fullscreen"] else []) ++
      (if o.StayAwake then ["--stay-awake"] else []) ++
      (if o.Record ≠ "" then ["--record", o.Record] else []) ++
      (if o.WindowTitle ≠ "" then ["--window-title", o.WindowTitle] else []) ++
      o.ExtraArgs := by
  simp only [buildScrcpyArgs, ite_append_out, List.nil_append, ite_len_pos]

/-- C1: on a zero-exit invocation every bridge operation classifies the
trimmed stdout by case-insensitive substring matching with its
operation-specific phrase groups, success group first: a success-phrase
match yields no error even when a failure phrase co-occurs, a
failure-group match (consulted only when success did not match) yields
`command_failed`, and when neither group matches the result is `parse`.
Pair and Connect carry failure groups; the EnableTCPIP and Disconnect
failure groups are empty. -/
theorem classification_success_first (out err : String) :
    (containsAny out ["Successfully paired to", "already paired"] = true →
      classifyPair out err = none) ∧
    (containsAny out ["Successfully paired to", "already paired"] = false →
      containsAny out ["failed", "error"] = true →
      classifyPair out err =
        some (newCommandFailedError "adb pair" out err 0
          (.other "pair failed"))) ∧
    (containsAny out ["Successfully paired to", "already paired"] = false →
      containsAny out ["failed", "error"] = false →
      classifyPair out err =
        some (newParseError "adb pair" out err (.other "unexpected output"))) ∧
    (containsAny out ["connected to", "already connected"] = true →
      classifyConnect out err = none) ∧
    (containsAny out ["connected to", "already connected"] = false →
      containsAny out ["failed", "unable"] = true →
      classifyConnect out err =
        some (newCommandFailedError "adb connect" out err 0
          (.other "connect failed"))) ∧
    (containsAny out ["connected to", "already connected"] = false →
      containsAny out ["failed", "unable"] = false →
      classifyConnect out err =
        some (newParseError "adb connect" out err
          (.other "unexpected output"))) ∧
    (containsAny out ["restarting in TCP mode", "already in tcp"] = true →
      classifyTcpip out err = none) ∧
    (containsAny out ["restarting in TCP mode", "already in tcp"] = false →
      classifyTcpip out err =
        some (newParseError "adb tcpip" out err
          (.other "unexpected output"))) ∧
    (containsAny out ["disconnected", "no such device"] = true →
      classifyDisconnect out err = none) ∧
    (containsAny out ["disconnected", "no such device"] = false →
      classifyDisconnect out err =
        some (newParseError "adb disconnect" out err
          (.other "unexpected output"))) ∧
    (∀ (adbPath ip code : String) (port : Int) (exec : AdbExec),
      ip ≠ "" → ¬port ≤ 0 → code ≠ "" →
      (exec ["pair", ip ++ ":" ++ toString port, code]).runErr = none →
      PairDevice adbPath exec ip port code =
        classifyPair
          (goTrimSpace (exec ["pair", ip ++ ":" ++ toString port, code]).stdout)
          (goTrimSpace (exec ["pair", ip ++ ":" ++ toString port, code]).stderr)) ∧
    (∀ (adbPath ip : String) (port : Int) (exec : AdbExec),
      ip ≠ "" → ¬port ≤ 0 →
      (exec ["connect", ip ++ ":" ++ toString port]).runErr = none →
      ConnectDevice adbPath exec ip port =
        classifyConnect
          (goTrimSpace (exec ["connect", ip ++ ":" ++ toString port]).stdout)
          (goTrimSpace (exec ["connect", ip ++ ":" ++ toString port]).stderr)) ∧
    (∀ (adbPath : String) (port : Int) (exec : AdbExec),
      ¬port ≤ 0 →
      (exec ["tcpip", toString port]).runErr = none →
      EnableTCPIP adbPath exec port =
        classifyTcpip
          (goTrimSpace (exec ["tcpip", toString port]).stdout)
          (goTrimSpace (exec ["tcpip", toString port]).stderr)) ∧
    (∀ (adbPath ip : String) (port : Int) (exec : AdbExec),
      ip ≠ "" → ¬port ≤ 0 →
      (exec ["disconnect", ip ++ ":" ++ toString port]).runErr = none →
      DisconnectDevice adbPath exec ip port =
        classifyDisconnect
          (goTrimSpace (exec ["disconnect", ip ++ ":" ++ toString port]).stdout)
          (goTrimSpace (exec ["disconnect", ip ++ ":" ++ toString port]).stderr)) := by
  refine ⟨?_, ?_, ?_, ?_, ?_, ?_, ?_, ?_, ?_, ?_, ?_, ?_, ?_, ?_⟩
  · intro h
    simp [classifyPair, h]
  · intro h1 h2
    simp [classifyPair, h1, h2]
  · intro h1 h2
    simp [classifyPair, h1, h2]
  · intro h
    simp [classifyConnect, h]
  · intro h1 h2
    simp [classifyConnect, h1, h2]
  · intro h1 h2
    simp [classifyConnect, h1, h2]
  · intro h
    simp [classifyTcpip, h]
  · intro h
    simp [classifyTcpip, h]
  · intro h
    simp [classifyDisconnect, h]
  · intro h
    simp [classifyDisconnect, h]
  · intro adbPath ip code port exec hip hport hcode hrun
    simp [PairDevice, runAdb, runCommand, hip, hport, hcode, hrun]
  · intro adbPath ip port exec hip hport hrun
    simp [ConnectDevice, runAdb, runCommand, hip, hport, hrun]
  · intro adbPath port exec hport hrun
    simp [EnableTCPIP, runAdb, runCommand, hport, hrun]
  · intro adbPath ip port exec hip hport hrun
    simp [DisconnectDevice, runAdb, runCommand, hip, hport, hrun]

/-- C1 witness: the spec's example in upper case succeeds; a co-occurring
failure phrase does not override the success phrase; with no success
phrase a failure phrase yields `command_failed`; with neither the result
is `parse`. -/
theorem classification_success_first_witness :
    classifyPair "SUCCESSFULLY PAIRED TO 192.168.1.5:5555" "" = none ∧
    classifyPair "Successfully paired to dev, old attempt failed" "" = none ∧
    classifyPair "pairing failed" "" =
      some (newCommandFailedError "adb pair" "pairing failed" "" 0
        (.other "pair failed")) ∧
    classifyPair "hello" "" =
      some (newParseError "adb pair" "hello" "" (.other "unexpected output")) :=
  ⟨(classification_success_first "SUCCESSFULLY PAIRED TO 192.168.1.5:5555"
      "").1 (by decide),
   (classification_success_first "Successfully paired to dev, old attempt failed"
      "").1 (by decide),
   (classification_success_first "pairing failed" "").2.1
      (by decide) (by decide),
   (classification_success_first "hello" "").2.2.1 (by decide) (by decide)⟩

/-- C2: every invalid input (empty address, non-positive port, empty
pairing code) makes the operation fail `invalid_input`, and the
command-execution oracle is never consulted: the result is identical for
any two oracles. -/
theorem invalid_input_no_spawn :
    (∀ (adbPath ip code : String) (port : Int) (exec1 exec2 : AdbExec),
      ip = "" ∨ port ≤ 0 ∨ code = "" →
      PairDevice adbPath exec1 ip port code =
        some (newInvalidInputError "pair requires ip, port, and code") ∧
      PairDevice adbPath exec1 ip port code =
        PairDevice adbPath exec2 ip port code) ∧
    (∀ (adbPath ip : String) (port : Int) (exec1 exec2 : AdbExec),
      ip = "" ∨ port ≤ 0 →
      ConnectDevice adbPath exec1 ip port =
        some (newInvalidInputError "connect requires ip and port") ∧
      ConnectDevice adbPath exec1 ip port =
        ConnectDevice adbPath exec2 ip port) ∧
    (∀ (adbPath : String) (port : Int) (exec1 exec2 : AdbExec),
      port ≤ 0 →
      EnableTCPIP adbPath exec1 port =
        some (newInvalidInputError "tcpip requires a port") ∧
      EnableTCPIP adbPath exec1 port = EnableTCPIP adbPath exec2 port) ∧
    (∀ (adbPath ip : String) (port : Int) (exec1 exec2 : AdbExec),
      ip = "" ∨ port ≤ 0 →
      DisconnectDevice adbPath exec1 ip port =
        some (newInvalidInputError "disconnect requires ip and port") ∧
      DisconnectDevice adbPath exec1 ip port =
        DisconnectDevice adbPath exec2 ip port) := by
  refine ⟨?_, ?_, ?_, ?_⟩
  · intro adbPath ip code port exec1 exec2 h
    rcases h with h | h | h <;>
      exact ⟨by simp [PairDevice, h], by simp [PairDevice, h]⟩
  · intro adbPath ip port exec1 exec2 h
    rcases h with h | h <;>
      exact ⟨by simp [ConnectDevice, h], by simp [ConnectDevice, h]⟩
  · intro adbPath port exec1 exec2 h
    exact ⟨by simp [EnableTCPIP, h], by simp [EnableTCPIP, h]⟩
  · intro adbPath ip port exec1 exec2 h
    rcases h with h | h <;>
      exact ⟨by simp [DisconnectDevice, h], by simp [DisconnectDevice, h]⟩

/-- C2 witness: an empty address, a non-positive port, and an empty
pairing code each fail `invalid_input` under two different oracles. -/
theorem invalid_input_no_spawn_witness :
    (PairDevice "adb" (fun _ => ⟨"a", "b", none, none⟩) "" 5555 "123456" =
      some (newInvalidInputError "pair requires ip, port, and code")) ∧
    (PairDevice "adb" (fun _ => ⟨"a", "b", none, none⟩) "" 5555 "123456" =
      PairDevice "adb" (fun _ => ⟨"c", "d", some (.exitError 1), none⟩)
        "" 5555 "123456") ∧
    (ConnectDevice "adb" (fun _ => ⟨"a", "b", none, none⟩) "192.168.1.5" 0 =
      some (newInvalidInputError "connect requires ip and port")) ∧
    (EnableTCPIP "adb" (fun _ => ⟨"a", "b", none, none⟩) (-1) =
      some (newInvalidInputError "tcpip requires a port")) ∧
    (DisconnectDevice "adb" (fun _ => ⟨"a", "b", none, none⟩) "" 5555 =
      some (newInvalidInputError "disconnect requires ip and port")) :=
  ⟨(invalid_input_no_spawn.1 "adb" "" "123456" 5555
      (fun _ => ⟨"a", "b", none, none⟩)
      (fun _ => ⟨"c", "d", some (.exitError 1), none⟩) (Or.inl rfl)).1,
   (invalid_input_no_spawn.1 "adb" "" "123456" 5555
      (fun _ => ⟨"a", "b", none, none⟩)
      (fun _ => ⟨"c", "d", some (.exitError 1), none⟩) (Or.inl rfl)).2,
   (invalid_input_no_spawn.2.1 "adb" "192.168.1.5" 0
      (fun _ => ⟨"a", "b", none, none⟩)
      (fun _ => ⟨"a", "b", none, none⟩) (Or.inr (by decide))).1,
   (invalid_input_no_spawn.2.2.1 "adb" (-1)
      (fun _ => ⟨"a", "b", none, none⟩)
      (fun _ => ⟨"a", "b", none, none⟩) (by decide)).1,
   (invalid_input_no_spawn.2.2.2 "adb" "" 5555
      (fun _ => ⟨"a", "b", none, none⟩)
      (fun _ => ⟨"a", "b", none, none⟩) (Or.inl rfl)).1⟩

/-- C8 witness: a concrete option set evaluates to exactly the expected
argument vector, the zero, empty, and false options omitted and the extra
arguments appended verbatim. -/
theorem buildScrcpyArgs_blocks_witness :
    buildScrcpyArgs "dev1"
      { BitRate := "8M", MaxSize := 0, MaxFps := 60, TurnScreenOff := true,
        Fullscreen := false, StayAwake := false, Record := "",
        WindowTitle := "", ExtraArgs := ["--no-audio"] } =
      ["-s", "dev1", "--bit-rate", "8M", "--max-fps", "60",
        "--turn-screen-off", "--no-audio"] :=
  (buildScrcpyArgs_blocks "dev1"
    { BitRate := "8M", MaxSize := 0, MaxFps := 60, TurnScreenOff := true,
      Fullscreen := false, StayAwake := false, Record := "",
      WindowTitle := "", ExtraArgs := ["--no-audio"] }).trans (by decide)

/-- C4: the orchestrator keeps at most one session. `StartScrcpy` with a
stored handle fails `command_failed` and leaves the state unchanged;
`StopScrcpy` with no stored handle fails `not_running` and leaves the
state unchanged. -/
theorem single_session_invariant (st : SessionState)
    (spawn : Except GoError ProcHandle) (graceExpired : Bool) :
    (st.scrcpyCmd.isSome = true →
      StartScrcpy spawn st =
        (st, some (newCommandFailedError "scrcpy" "" "" 0
          (.other "scrcpy already running")))) ∧
    (st.scrcpyCmd = none →
      StopScrcpy graceExpired st =
        (st, some (newNotRunningError "scrcpy is not running"))) := by
  constructor
  · intro h
    simp [StartScrcpy, h]
  · intro h
    simp [StopScrcpy, h]

/-- C4 witness. -/
theorem single_session_invariant_witness :
    (StartScrcpy (.ok ⟨2⟩) ⟨some ⟨1⟩, some ()⟩ =
      (⟨some ⟨1⟩, some ()⟩, some (newCommandFailedError "scrcpy" "" "" 0
        (.other "scrcpy already running")))) ∧
    (StopScrcpy false ⟨none, none⟩ =
      (⟨none, none⟩, some (newNotRunningError "scrcpy is not running"))) :=
  ⟨(single_session_invariant ⟨some ⟨1⟩, some ()⟩ (.ok ⟨2⟩) false).1 rfl,
   (single_session_invariant ⟨none, none⟩ (.ok ⟨2⟩) false).2 rfl⟩

/-- C7: after the watcher observes the process exit it clears both the
stored handle and the cancellation function, so the state is Idle and a
subsequent `StartScrcpy` (with a successful spawn) succeeds and stores the
new handle. -/
theorem watcher_restores_idle (st : SessionState) (c : ProcHandle) :
    (watcherOnExit st).scrcpyCmd = none ∧
    (watcherOnExit st).scrcpyCancel = none ∧
    StartScrcpy (.ok c) (watcherOnExit st) =
      ({ scrcpyCmd := some c, scrcpyCancel := some () }, none) := by
  refine ⟨rfl, rfl, ?_⟩
  simp [StartScrcpy, watcherOnExit]

/-- C5: `ListDevices` splits stdout into lines, skips empty and header
lines, parses each remaining line into an `{id, state}` pair from its
first two whitespace-separated fields — on the spec's example input it
yields exactly the one device with no error — and any non-empty non-header
line with fewer than two fields makes the whole call fail with a `parse`
error instead of being skipped. -/
theorem listDevices_parsing :
    ListDevices "adb"
      (fun _ => ⟨"List of devices attached\n\nabc123\tdevice\n", "",
        none, none⟩) =
      Except.ok [{ ID := "abc123", State := "device" }] ∧
    (∀ (stdout stderr : String) (lines : List String),
      (∃ l ∈ lines, goTrimSpace l ≠ "" ∧
        goHasPrefix (goTrimSpace l) "List of devices attached" = false ∧
        (goFields (goTrimSpace l)).length < 2) →
      ∃ e, parseDeviceLines stdout stderr lines = .error e ∧
        e.Kind = .parse) := by
  constructor
  · rfl
  · intro stdout stderr lines h
    induction lines with
    | nil => simp at h
    | cons l rest ih =>
      by_cases hc : goTrimSpace l = "" ∨
          goHasPrefix (goTrimSpace l) "List of devices attached" = true
      · have hstep : parseDeviceLines stdout stderr (l :: rest) =
            parseDeviceLines stdout stderr rest := by
          rcases hc with hc | hc <;> simp [parseDeviceLines, hc]
        rw [hstep]
        apply ih
        rcases h with ⟨l', hmem, hprop⟩
        rcases List.mem_cons.mp hmem with heq | hmem'
        · exfalso
          subst heq
          rcases hc with hc | hc
          · exact hprop.1 hc
          · rw [hprop.2.1] at hc
            cases hc
        · exact ⟨l', hmem', hprop⟩
      · push_neg at hc
        obtain ⟨hne, hpre⟩ := hc
        have hpre' : goHasPrefix (goTrimSpace l)
            "List of devices attached" = false := by
          cases hb : goHasPrefix (goTrimSpace l) "List of devices attached"
          · rfl
          · exact absurd hb hpre
        cases hf : goFields (goTrimSpace l) with
        | nil =>
          refine ⟨newParseError "adb devices" stdout stderr
            (.other ("unexpected device line: " ++ goTrimSpace l)), ?_, rfl⟩
          simp [parseDeviceLines, hne, hpre', hf]
        | cons f0 fs =>
          cases fs with
          | nil =>
            refine ⟨newParseError "adb devices" stdout stderr
              (.other ("unexpected device line: " ++ goTrimSpace l)),
              ?_, rfl⟩
            simp [parseDeviceLines, hne, hpre', hf]
          | cons f1 fs2 =>
            have hrest : ∃ l' ∈ rest, goTrimSpace l' ≠ "" ∧
                goHasPrefix (goTrimSpace l')
                  "List of devices attached" = false ∧
                (goFields (goTrimSpace l')).length < 2 := by
              rcases h with ⟨l', hmem, hprop⟩
              rcases List.mem_cons.mp hmem with heq | hmem'
              · exfalso
                subst heq
                rw [hf] at hprop
                simp at hprop
                omega
              · exact ⟨l', hmem', hprop⟩
            obtain ⟨e, he, hk⟩ := ih hrest
            refine ⟨e, ?_, hk⟩
            simp [parseDeviceLines, hne, hpre', hf, he]

/-- C5 witness: a lone non-header single-token line yields a `parse`
error. -/
theorem listDevices_parsing_witness :
    ∃ e, parseDeviceLines "x" "y" ["abc123"] = .error e ∧
      e.Kind = .parse :=
  listDevices_parsing.2 "x" "y" ["abc123"] (by decide)

/-- C6 counterexample: on a zero exit with stdout "failed" — which
contains a failure-group phrase and no success phrase — both
`EnableTCPIP` and `DisconnectDevice` return a `parse` error, not
`command_failed`: neither operation consults a failure group. -/
theorem tcpip_disconnect_failure_counterexample :
    containsAny "failed" ["failed", "error", "unable"] = true ∧
    (EnableTCPIP "adb" (fun _ => ⟨"failed", "", none, none⟩) 5555).map
      UIError.Kind = some .parse ∧
    (EnableTCPIP "adb" (fun _ => ⟨"failed", "", none, none⟩) 5555).map
      UIError.Kind ≠ some .commandFailed ∧
    (DisconnectDevice "adb" (fun _ => ⟨"failed", "", none, none⟩)
      "192.168.1.5" 5555).map UIError.Kind = some .parse ∧
    (DisconnectDevice "adb" (fun _ => ⟨"failed", "", none, none⟩)
      "192.168.1.5" 5555).map UIError.Kind ≠ some .commandFailed := by
  decide

/-- C6 amended: for EnableTCPIP and DisconnectDevice, a zero-exit
invocation whose trimmed stdout matches no success phrase returns a
`parse` error regardless of any failure phrase in stdout: these two
operations have no failure group. -/
theorem tcpip_disconnect_no_failure_group (adbPath out err ip : String)
    (port : Int) :
    (containsAny (goTrimSpace out)
        ["restarting in TCP mode", "already in tcp"] = false →
      ¬port ≤ 0 →
      (EnableTCPIP adbPath (fun _ => ⟨out, err, none, none⟩) port).map
        UIError.Kind = some .parse) ∧
    (containsAny (goTrimSpace out) ["disconnected", "no such device"] = false →
      ip ≠ "" → ¬port ≤ 0 →
      (DisconnectDevice adbPath (fun _ => ⟨out, err, none, none⟩)
        ip port).map UIError.Kind = some .parse) := by
  constructor
  · intro hmatch hport
    simp [EnableTCPIP, runAdb, runCommand, classifyTcpip, hmatch, hport,
      newParseError]
  · intro hmatch hip hport
    simp [DisconnectDevice, runAdb, runCommand, classifyDisconnect, hmatch,
      hip, hport, newParseError]

/-- C6 amended witness. -/
theorem tcpip_disconnect_no_failure_group_witness :
    (EnableTCPIP "adb" (fun _ => ⟨"error: failed", "", none, none⟩)
      5555).map UIError.Kind = some .parse ∧
    (DisconnectDevice "adb" (fun _ => ⟨"error: failed", "", none, none⟩)
      "192.168.1.5" 5555).map UIError.Kind = some .parse :=
  ⟨(tcpip_disconnect_no_failure_group "adb" "error: failed" ""
      "192.168.1.5" 5555).1 (by decide) (by decide),
   (tcpip_disconnect_no_failure_group "adb" "error: failed" ""
      "192.168.1.5" 5555).2 (by decide) (by decide) (by decide)⟩

/-- C7 witness: from a state holding a handle, the watcher transition
yields the Idle state and a new start succeeds. -/
theorem watcher_restores_idle_witness :
    (watcherOnExit ⟨some ⟨1⟩, some ()⟩).scrcpyCmd = none ∧
    (watcherOnExit ⟨some ⟨1⟩, some ()⟩).scrcpyCancel = none ∧
    StartScrcpy (.ok ⟨2⟩) (watcherOnExit ⟨some ⟨1⟩, some ()⟩) =
      ({ scrcpyCmd := some ⟨2⟩, scrcpyCancel := some () }, none) :=
  watcher_restores_idle ⟨some ⟨1⟩, some ()⟩ ⟨2⟩

/-- C3: when the context expired (or was cancelled) before the process
completed, `runCommand` returns a `timeout` error wrapping the run error
as its cause — never `command_failed`, even when the killed process also
reported an exit status. -/
theorem runCommand_timeout (command : String) (raw : RawExec) (e : GoError)
    (hrun : raw.runErr = some e)
    (hexp : isTimeout e = true ∨ raw.ctxErr.isSome = true) :
    (runCommand command raw).2.2 = some (newTimeoutError command e) ∧
    (runCommand command raw).2.2.map UIError.Kind = some .timeout ∧
    (runCommand command raw).2.2.map UIError.Kind ≠ some .commandFailed ∧
    (runCommand command raw).2.2.map UIError.Err = some (some e) := by
  have hcond : (isTimeout e || raw.ctxErr.isSome) = true := by
    rcases hexp with h | h <;> simp [h]
  refine ⟨?_, ?_, ?_, ?_⟩ <;>
    simp [runCommand, hrun, hcond, newTimeoutError]

/-- C3 witness: a process killed at the deadline that also reports exit
status 1 still yields `timeout`. -/
theorem runCommand_timeout_witness :
    (runCommand "adb" ⟨"out", "err", some (.exitError 1),
        some .deadlineExceeded⟩).2.2 =
      some (newTimeoutError "adb" (.exitError 1)) ∧
    (runCommand "adb" ⟨"out", "err", some (.exitError 1),
        some .deadlineExceeded⟩).2.2.map UIError.Kind ≠
      some .commandFailed :=
  ⟨(runCommand_timeout "adb" ⟨"out", "err", some (.exitError 1),
      some .deadlineExceeded⟩ (.exitError 1) rfl (Or.inr rfl)).1,
   (runCommand_timeout "adb" ⟨"out", "err", some (.exitError 1),
      some .deadlineExceeded⟩ (.exitError 1) rfl (Or.inr rfl)).2.2.1⟩

/-- C9: `runCommand` always returns the trimmed stdout and stderr; on a
non-zero, non-timeout exit it returns `command_failed` carrying the
trimmed streams and the exit code; on a zero exit it returns no error. -/
theorem runCommand_capture_classify (command : String) (raw : RawExec) :
    (runCommand command raw).1 = goTrimSpace raw.stdout ∧
    (runCommand command raw).2.1 = goTrimSpace raw.stderr ∧
    (∀ code : Int, code ≠ 0 → raw.runErr = some (.exitError code) →
      raw.ctxErr = none →
      (runCommand command raw).2.2 =
        some (newCommandFailedError command (goTrimSpace raw.stdout)
          (goTrimSpace raw.stderr) code (.exitError code))) ∧
    (raw.runErr = none → (runCommand command raw).2.2 = none) := by
  refine ⟨?_, ?_, ?_, ?_⟩
  · cases h : raw.runErr with
    | none => simp [runCommand, h]
    | some e => simp only [runCommand, h]; split <;> rfl
  · cases h : raw.runErr with
    | none => simp [runCommand, h]
    | some e => simp only [runCommand, h]; split <;> rfl
  · intro code _ hrun hctx
    simp [runCommand, hrun, hctx, isTimeout, extractExitCode]
  · intro h
    simp [runCommand, h]

/-- C10 counterexample: a timed-out invocation with non-empty captured
output yields a `timeout` error whose `Stdout` and `Stderr` fields are
empty — the structured error does not retain the captured streams, even
though the execution primitive returns them alongside. -/
theorem timeout_error_drops_output_counterexample :
    (runCommand "adb" ⟨"some output", "oops", some (.other "signal: killed"),
        some .deadlineExceeded⟩).2.2.map UIError.Kind = some .timeout ∧
    (runCommand "adb" ⟨"some output", "oops", some (.other "signal: killed"),
        some .deadlineExceeded⟩).2.2.map UIError.Stdout = some "" ∧
    (runCommand "adb" ⟨"some output", "oops", some (.other "signal: killed"),
        some .deadlineExceeded⟩).2.2.map UIError.Stderr = some "" ∧
    (runCommand "adb" ⟨"some output", "oops", some (.other "signal: killed"),
        some .deadlineExceeded⟩).1 = "some output" ∧
    ("some output" : String) ≠ "" := by
  refine ⟨rfl, rfl, rfl, rfl, by decide⟩

/-- C10 amended: `command_failed` and `parse` errors from a bridge
invocation retain the captured trimmed stdout and stderr on the error;
`timeout` errors carry empty `Stdout`/`Stderr` fields, the execution
primitive returning the trimmed streams alongside the error instead. -/
theorem error_output_retention (command out err : String) (raw : RawExec) :
    (∀ e u, raw.runErr = some e → isTimeout e = false → raw.ctxErr = none →
      (runCommand command raw).2.2 = some u →
      u.Stdout = goTrimSpace raw.stdout ∧
      u.Stderr = goTrimSpace raw.stderr) ∧
    (∀ u, classifyPair out err = some u →
      u.Stdout = out ∧ u.Stderr = err) ∧
    (∀ u, classifyConnect out err = some u →
      u.Stdout = out ∧ u.Stderr = err) ∧
    (∀ u, classifyTcpip out err = some u →
      u.Stdout = out ∧ u.Stderr = err) ∧
    (∀ u, classifyDisconnect out err = some u →
      u.Stdout = out ∧ u.Stderr = err) ∧
    (∀ lines u, parseDeviceLines out err lines = .error u →
      u.Stdout = out ∧ u.Stderr = err) ∧
    (∀ e u, raw.runErr = some e →
      (runCommand command raw).2.2 = some u → u.Kind = .timeout →
      u.Stdout = "" ∧ u.Stderr = "" ∧
      (runCommand command raw).1 = goTrimSpace raw.stdout ∧
      (runCommand command raw).2.1 = goTrimSpace raw.stderr) := by
  refine ⟨?_, ?_, ?_, ?_, ?_, ?_, ?_⟩
  · intro e u hrun htime hctx hres
    rw [runCommand] at hres
    simp only [hrun, hctx, htime] at hres
    simp at hres
    cases hres
    exact ⟨rfl, rfl⟩
  · intro u h
    simp only [classifyPair] at h
    split at h
    · cases h
    · split at h <;> (cases h; exact ⟨rfl, rfl⟩)
  · intro u h
    simp only [classifyConnect] at h
    split at h
    · cases h
    · split at h <;> (cases h; exact ⟨rfl, rfl⟩)
  · intro u h
    simp only [classifyTcpip] at h
    split at h
    · cases h
    · cases h
      exact ⟨rfl, rfl⟩
  · intro u h
    simp only [classifyDisconnect] at h
    split at h
    · cases h
    · cases h
      exact ⟨rfl, rfl⟩
  · intro lines u h
    exact ⟨(parseDeviceLines_error_fields out err lines u h).1,
      (parseDeviceLines_error_fields out err lines u h).2.1⟩
  · intro e u hrun hres hkind
    rw [runCommand] at hres
    simp only [hrun] at hres
    split at hres
    · simp at hres
      cases hres
      refine ⟨rfl, rfl, ?_, ?_⟩ <;>
        (rw [runCommand]; simp only [hrun]; split <;> rfl)
    · simp at hres
      rw [← hres] at hkind
      cases hkind

/-- C10 amended witness: a failed invocation's error retains the trimmed
streams, and so does a `parse` classification. -/
theorem error_output_retention_witness :
    ((newCommandFailedError "adb" "out" "err" 2 (.exitError 2)).Stdout =
        goTrimSpace " out " ∧
      (newCommandFailedError "adb" "out" "err" 2 (.exitError 2)).Stderr =
        goTrimSpace " err ") ∧
    ((newCommandFailedError "adb pair" "pairing failed" "e" 0
        (.other "pair failed")).Stdout = "pairing failed" ∧
      (newCommandFailedError "adb pair" "pairing failed" "e" 0
        (.other "pair failed")).Stderr = "e") :=
  ⟨(error_output_retention "adb" "" ""
      ⟨" out ", " err ", some (.exitError 2), none⟩).1
      (.exitError 2) (newCommandFailedError "adb" "out" "err" 2
        (.exitError 2)) rfl rfl rfl (by decide),
   (error_output_retention "adb" "pairing failed" "e"
      ⟨"", "", none, none⟩).2.1
      (newCommandFailedError "adb pair" "pairing failed" "e" 0
        (.other "pair failed")) (by decide)⟩

/-- C9 witness. -/
theorem runCommand_capture_classify_witness :
    (runCommand "adb" ⟨" out \n", "\terr ", some (.exitError 3),
        none⟩).1 = "out" ∧
    (runCommand "adb" ⟨" out \n", "\terr ", some (.exitError 3),
        none⟩).2.2 =
      some (newCommandFailedError "adb" "out" "err" 3 (.exitError 3)) ∧
    (runCommand "adb" ⟨" ok \n", "", none, none⟩).2.2 = none := by
  refine ⟨?_, ?_, ?_⟩
  · exact (runCommand_capture_classify "adb"
      ⟨" out \n", "\terr ", some (.exitError 3), none⟩).1.trans (by decide)
  · exact ((runCommand_capture_classify "adb"
      ⟨" out \n", "\terr ", some (.exitError 3), none⟩).2.2.1 3
        (by decide) rfl rfl).trans (by decide)
  · exact (runCommand_capture_classify "adb"
      ⟨" ok \n", "", none, none⟩).2.2.2 rfl

end Backend
